import Mathlib

/-!
# Verification of `src/polygon.rs` (termviz polygon pipeline)

Shallow embedding of the polygon transform-and-cache pipeline:
`get_polygon_from_ros_param`, `read_points`, `PolygonData` with its
`update`/`get_lines`, and the two sources `ParameterPolygon` (pull) and
`PolygonListener` (push).

Modelling conventions:
* Floating-point coordinates (`f32`/`f64`) are idealized as rationals `ℚ`;
  the `f32 → f64` widening in `read_points` is exact in reality and is the
  identity here, and the `f64 → f32` narrowing in
  `get_polygon_from_ros_param` is likewise modelled as exact.
* `tui::style::Color` is an opaque symbolic value, modelled as `ℕ`.
* Time stamps (`rosrust::Time`) are modelled as `ℕ`.
* The transform machinery (`rustros_tf::TfListener::lookup_transform`
  composed with `ros_transform_to_isometry` and `transform_point`) is an
  external capability per the spec; a listener is modelled as a pure
  function from (target frame, source frame, stamp) to either an error or
  a point map `Point3 → Point3`.
* Rust panics (`Vec` index out of bounds, `unwrap`) surface as
  `Except.error`; functions that cannot panic stay pure.
-/

/-- `tui::style::Color`, an opaque symbolic color value. -/
abbrev Color := ℕ

/-- `rosrust::Time`, modelled as a natural number. -/
abbrev Time := ℕ

/-- Modelled from the external `rosrust` crate: `rosrust::Time::new()`
constructs the default time value (`sec = 0`, `nsec = 0`), i.e. the zero
time; it does not read a clock. -/
def Time.new : Time := 0

/-- `rosrust_msg::geometry_msgs::Point32` (single-precision point). -/
structure Point32 where
  x : ℚ
  y : ℚ
  z : ℚ
deriving DecidableEq, Repr

/-- `nalgebra::Point3<f64>` (double-precision point). -/
structure Point3 where
  x : ℚ
  y : ℚ
  z : ℚ
deriving DecidableEq, Repr

/-- `rosrust_msg::geometry_msgs::Polygon`. -/
structure Polygon where
  points : List Point32
deriving DecidableEq, Repr

/-- `rosrust_msg::std_msgs::Header`. -/
structure Header where
  seq : ℕ
  stamp : Time
  frame_id : String
deriving DecidableEq, Repr

/-- `rosrust_msg::geometry_msgs::PolygonStamped`. -/
structure PolygonStamped where
  header : Header
  polygon : Polygon
deriving DecidableEq, Repr

/-- `tui::widgets::canvas::Line`: a 2D segment plus a color. -/
structure Line where
  x1 : ℚ
  y1 : ℚ
  x2 : ℚ
  y2 : ℚ
  color : Color
deriving DecidableEq, Repr

/-- The external Transform Provider (`rustros_tf::TfListener`), modelled as
a pure function of (target frame, source frame, timestamp) returning either
a lookup error or the rigid transform, absorbed together with
`ros_transform_to_isometry` into the point map it induces. -/
abbrev TfListener := String → String → Time → Except Unit (Point3 → Point3)

/-- The row conversion inside the `for pt in f` loop of
`get_polygon_from_ros_param`: `pt[0]` and `pt[1]` are Rust `Vec` indexing
and panic (modelled as `Except.error`) when the row has fewer than two
elements; `z` is `0 as f32`, exactly `0`. -/
def point32OfRow (pt : List ℚ) : Except String Point32 :=
  match pt with
  | x :: y :: _ => Except.ok ⟨x, y, 0⟩
  | _ => Except.error "index out of bounds"

/-- `get_polygon_from_ros_param`. The input models the external parameter
store at the configured name: `none` when `rosrust::param` yields no
parameter handle, `some (Except.error e)` when `get::<Vec<Vec<f64>>>()`
fails to decode, and `some (Except.ok rows)` when it decodes to `rows`.
The result is `Except.error _` when the conversion loop panics. -/
def get_polygon_from_ros_param (param_value : Option (Except Unit (List (List ℚ)))) :
    Except String (Option Polygon) :=
  match param_value with
  | some fb =>
    match fb with
    | Except.ok f => do
        let pts ← f.mapM point32OfRow
        return some ⟨pts⟩
    | Except.error _ => Except.ok none
  | none => Except.ok none

/-- `read_points`: converts the message points to `Point3<f64>`
(the `f32 → f64` widening is exact, hence the identity on `ℚ`). -/
def read_points (msg : Polygon) : List Point3 :=
  msg.points.map (fun pt => ⟨pt.x, pt.y, pt.z⟩)

/-- `PolygonData`: the shared polygon state. -/
structure PolygonData where
  polygon_stamped_msg : Option PolygonStamped
  lines_in_static_frame : Option (List Line)
  _color : Color
  _tf_listener : TfListener
  _static_frame : String

/-- The inner `for pt in read_points(..)` loop of `PolygonData::update`:
transforms each point and emits a segment from the previous transformed
point (when there is one) to the current one. -/
def transformSegments (c : Color) (tf : Point3 → Point3) :
    List Point3 → Option Point3 → List Line
  | [], _ => []
  | pt :: rest, previous =>
    let p := tf pt
    (match previous with
     | none => ([] : List Line)
     | some pp => [⟨pp.x, pp.y, p.x, p.y, c⟩]) ++ transformSegments c tf rest (some p)

/-- `PolygonData::update`: clear the cache; if a message is present, look
up the transform; on success recompute the cached segments, on failure
leave the cache cleared. -/
def PolygonData.update (d : PolygonData) : PolygonData :=
  let cleared := { d with lines_in_static_frame := none }
  match cleared.polygon_stamped_msg with
  | none => cleared
  | some polygon =>
    match cleared._tf_listener cleared._static_frame polygon.header.frame_id
        polygon.header.stamp with
    | Except.error _ => cleared
    | Except.ok polygon_transform =>
      { cleared with
        lines_in_static_frame :=
          some (transformSegments cleared._color polygon_transform
            (read_points polygon.polygon) none) }

/-- `PolygonData::get_lines`: the cached segments, or empty when absent. -/
def PolygonData.get_lines (d : PolygonData) : List Line :=
  match d.lines_in_static_frame with
  | some lines => lines
  | none => []

/-- `crate::config::ParameterConfigColor` (its source is outside `src/`);
per the spec it carries the parameter name, a frame id and a symbolic
color; the `config.color.to_tui()` conversion is absorbed into the stored
`color` value. -/
structure ParameterConfigColor where
  parameter : String
  frame : String
  color : Color

/-- `crate::config::ListenerConfigColor` (its source is outside `src/`);
per the spec it carries the topic name and a symbolic color; the
`config.color.to_tui()` conversion is absorbed into the stored `color`. -/
structure ListenerConfigColor where
  topic : String
  color : Color

/-- `ParameterPolygon` (pull source): owns the shared state. -/
structure ParameterPolygon where
  _data : PolygonData

/-- `PolygonListener` (push source): owns the shared state (the subscriber
handle is registration with the external stream and carries no state we
model). -/
structure PolygonListener where
  _data : PolygonData

/-- `ParameterPolygon::new`. `param_value` models the external parameter
store at `config.parameter` (see `get_polygon_from_ros_param`);
`construction_time` is a ghost parameter recording the wall-clock instant
at which construction runs — the code never reads a clock (it stores
`Time.new`), so the ghost is unused by the body. The result is
`Except.error _` when construction panics. -/
def ParameterPolygon.new (config : ParameterConfigColor) (tf_listener : TfListener)
    (static_frame : String) (param_value : Option (Except Unit (List (List ℚ))))
    (construction_time : Time) : Except String ParameterPolygon :=
  let data : PolygonData :=
    { polygon_stamped_msg := none
      lines_in_static_frame := none
      _color := config.color
      _tf_listener := tf_listener
      _static_frame := static_frame }
  match get_polygon_from_ros_param param_value with
  | Except.error e => Except.error e
  | Except.ok none => Except.ok ⟨data⟩
  | Except.ok (some polygon) =>
    Except.ok ⟨{ data with
      polygon_stamped_msg := some
        { header := { seq := 0, stamp := Time.new, frame_id := config.frame }
          polygon := polygon } }⟩

/-- `ParameterPolygon::get_lines`: takes the write lock, calls `update`,
then reads the cache. Returns the post-state (the mutation under the lock)
together with the returned lines. -/
def ParameterPolygon.get_lines (p : ParameterPolygon) : ParameterPolygon × List Line :=
  let d := p._data.update
  (⟨d⟩, d.get_lines)

/-- `PolygonListener::new`: creates the state with no message and no cache.
The subscription itself (and its possible failure, a fatal `unwrap`) is
registration with the external transport; the registered handler closure is
modelled separately as `PolygonListener.handle`. -/
def PolygonListener.new (config : ListenerConfigColor) (tf_listener : TfListener)
    (static_frame : String) : PolygonListener :=
  ⟨{ polygon_stamped_msg := none
     lines_in_static_frame := none
     _color := config.color
     _tf_listener := tf_listener
     _static_frame := static_frame }⟩

/-- The subscriber callback registered by `PolygonListener::new`: under the
write lock, replace the message with the delivered one and `update`. -/
def PolygonListener.handle (d : PolygonData) (msg : PolygonStamped) : PolygonData :=
  PolygonData.update { d with polygon_stamped_msg := some msg }

/-- `PolygonListener::get_lines`: read lock, then `PolygonData::get_lines`;
no recompute. -/
def PolygonListener.get_lines (l : PolygonListener) : List Line :=
  l._data.get_lines

/-- Spec-side definition (for refinement statements): the segments the spec
describes — one segment per adjacent pair of points, in input order,
carrying the color `c`. -/
def adjacentSegments (c : Color) (ps : List Point3) : List Line :=
  (ps.zip ps.tail).map (fun q => ⟨q.1.x, q.1.y, q.2.x, q.2.y, c⟩)

/-- The state invariant of claim C5: no message implies no cache. -/
def PolygonData.emptyMsgInv (d : PolygonData) : Prop :=
  d.polygon_stamped_msg = none → d.lines_in_static_frame = none

/-! ## Concrete fixtures used by witnesses and counterexamples -/

/-- A transform provider whose lookup always succeeds with the identity
transform. -/
def tflId : TfListener := fun _ _ _ => Except.ok (fun p => p)

/-- A transform provider whose lookup always fails. -/
def tflFail : TfListener := fun _ _ _ => Except.error ()

/-- A sample pull-source configuration. -/
def cfgP : ParameterConfigColor := ⟨"poly_param", "base_link", 7⟩

/-- A sample push-source configuration. -/
def cfgL : ListenerConfigColor := ⟨"poly_topic", 7⟩

/-- The spec scenario message: points (0,0), (1,0), (1,1). -/
def msgTri : PolygonStamped :=
  ⟨⟨0, 0, "base_link"⟩, ⟨[⟨0, 0, 0⟩, ⟨1, 0, 0⟩, ⟨1, 1, 0⟩]⟩⟩

/-- A message whose points are (0,0), (1,1), (0,0), (1,1): the value pair
(last point, first point) recurs as the adjacent pair at indices 1, 2,
while the sequence does not end with its first point. -/
def msgAB : PolygonStamped :=
  ⟨⟨0, 0, "base_link"⟩, ⟨[⟨0, 0, 0⟩, ⟨1, 1, 0⟩, ⟨0, 0, 0⟩, ⟨1, 1, 0⟩]⟩⟩

/-- A state holding `msgTri` with the identity transform provider. -/
def dTri : PolygonData := ⟨some msgTri, none, 7, tflId, "static"⟩

/-- A state holding `msgAB` with the identity transform provider. -/
def dAB : PolygonData := ⟨some msgAB, none, 7, tflId, "static"⟩

/-- A state with a non-empty cache whose transform lookup fails. -/
def dStale : PolygonData :=
  ⟨some msgTri, some [⟨3, 4, 5, 6, 7⟩], 7, tflFail, "static"⟩

/-- The state produced by `ParameterPolygon.new cfgP tflFail "static" none 0`. -/
def pEmpty : ParameterPolygon := ⟨⟨none, none, 7, tflFail, "static"⟩⟩

/-- The pull source produced from the decoded parameter value `[[1, 2]]` at
(ghost) construction time 5: the stored stamp is `Time.new = 0`, not 5. -/
def pStamped : ParameterPolygon :=
  ⟨⟨some ⟨⟨0, 0, "base_link"⟩, ⟨[⟨1, 2, 0⟩]⟩⟩, none, 7, tflFail, "static"⟩⟩

/-! ## Helper lemmas about the segment loop and `update` -/

theorem transformSegments_some (c : Color) (tf : Point3 → Point3)
    (pts : List Point3) (q : Point3) :
    transformSegments c tf pts (some q) = adjacentSegments c (q :: pts.map tf) := by
  induction pts generalizing q with
  | nil => simp [transformSegments, adjacentSegments]
  | cons p rest ih =>
    simp only [transformSegments, ih (tf p), adjacentSegments, List.map_cons,
      List.tail_cons, List.zip_cons_cons, List.map_cons, List.singleton_append]

theorem transformSegments_none (c : Color) (tf : Point3 → Point3)
    (pts : List Point3) :
    transformSegments c tf pts none = adjacentSegments c (pts.map tf) := by
  cases pts with
  | nil => simp [transformSegments, adjacentSegments]
  | cons p rest =>
    simp only [transformSegments, transformSegments_some, List.map_cons,
      List.nil_append]

theorem adjacentSegments_length (c : Color) (ps : List Point3) :
    (adjacentSegments c ps).length = ps.length - 1 := by
  simp only [adjacentSegments, List.length_map, List.length_zip, List.length_tail]
  omega

theorem adjacentSegments_getElem (c : Color) (ps : List Point3) (i : ℕ)
    (h1 : i < ps.length) (h2 : i + 1 < ps.length)
    (h3 : i < (adjacentSegments c ps).length) :
    (adjacentSegments c ps)[i] = ⟨ps[i].x, ps[i].y, ps[i + 1].x, ps[i + 1].y, c⟩ := by
  simp only [adjacentSegments, List.getElem_map, List.getElem_zip, List.getElem_tail]

theorem adjacentSegments_color_mem (c : Color) (ps : List Point3) (s : Line)
    (h : s ∈ adjacentSegments c ps) : s.color = c := by
  simp only [adjacentSegments, List.mem_map] at h
  obtain ⟨q, _, rfl⟩ := h
  rfl

theorem update_msg_none (d : PolygonData) (h : d.polygon_stamped_msg = none) :
    d.update = { d with lines_in_static_frame := none } := by
  obtain ⟨m, lines, c, tfl, sf⟩ := d
  dsimp only at h
  subst h
  rfl

theorem update_tf_error (d : PolygonData) (polygon : PolygonStamped) (e : Unit)
    (hm : d.polygon_stamped_msg = some polygon)
    (ht : d._tf_listener d._static_frame polygon.header.frame_id polygon.header.stamp
        = Except.error e) :
    d.update = { d with lines_in_static_frame := none } := by
  obtain ⟨m, lines, c, tfl, sf⟩ := d
  dsimp only at hm ht
  subst hm
  unfold PolygonData.update
  dsimp only
  rw [ht]

theorem update_tf_ok (d : PolygonData) (polygon : PolygonStamped)
    (tf : Point3 → Point3)
    (hm : d.polygon_stamped_msg = some polygon)
    (ht : d._tf_listener d._static_frame polygon.header.frame_id polygon.header.stamp
        = Except.ok tf) :
    d.update =
      { d with
        lines_in_static_frame :=
          some (adjacentSegments d._color ((read_points polygon.polygon).map tf)) } := by
  obtain ⟨m, lines, c, tfl, sf⟩ := d
  dsimp only at hm ht ⊢
  subst hm
  unfold PolygonData.update
  dsimp only
  rw [ht]
  dsimp only
  rw [transformSegments_none]

theorem get_lines_of_some (d : PolygonData) (lines : List Line)
    (h : d.lines_in_static_frame = some lines) : d.get_lines = lines := by
  unfold PolygonData.get_lines
  rw [h]

theorem get_lines_of_none (d : PolygonData)
    (h : d.lines_in_static_frame = none) : d.get_lines = [] := by
  unfold PolygonData.get_lines
  rw [h]

theorem update_preserves_msg (d : PolygonData) :
    d.update.polygon_stamped_msg = d.polygon_stamped_msg := by
  rcases hm : d.polygon_stamped_msg with _ | polygon
  · rw [update_msg_none d hm]
    exact hm
  · rcases ht : d._tf_listener d._static_frame polygon.header.frame_id
        polygon.header.stamp with e | tf
    · rw [update_tf_error d polygon e hm ht]
      exact hm
    · rw [update_tf_ok d polygon tf hm ht]
      exact hm

theorem mapM_point32OfRow_ok (rows : List (List ℚ))
    (h : ∀ r ∈ rows, 2 ≤ r.length) :
    rows.mapM point32OfRow =
      Except.ok (rows.map (fun r => (⟨r.headI, r.tail.headI, 0⟩ : Point32))) := by
  induction rows with
  | nil => rfl
  | cons r rest ih =>
    have hr : 2 ≤ r.length := h r (List.mem_cons_self r rest)
    rcases r with _ | ⟨x, r'⟩
    · simp at hr
    rcases r' with _ | ⟨y, r''⟩
    · simp at hr
    rw [List.mapM_cons, ih (fun a ha => h a (List.mem_cons_of_mem _ ha))]
    rfl

theorem get_polygon_ok_rows (rows : List (List ℚ))
    (h : ∀ r ∈ rows, 2 ≤ r.length) :
    get_polygon_from_ros_param (some (Except.ok rows)) =
      Except.ok (some ⟨rows.map (fun r => (⟨r.headI, r.tail.headI, 0⟩ : Point32))⟩) := by
  unfold get_polygon_from_ros_param
  dsimp only
  rw [mapM_point32OfRow_ok rows h]
  rfl

/-! ## Claim theorems -/

/-- Claim C1 (confirmed): for a Polygon State holding a Boundary Message with
N points, after an `update` whose transform lookup succeeds, `get_lines`
yields exactly `N - 1` segments (truncated subtraction, i.e. max(0, N−1)),
and segment i connects the (x, y) of transformed point i to the (x, y) of
transformed point i+1, in input order — concretely, the cache equals the
spec-side `adjacentSegments` of the transformed points. -/
theorem update_success_segments (d : PolygonData) (polygon : PolygonStamped)
    (tf : Point3 → Point3)
    (hm : d.polygon_stamped_msg = some polygon)
    (ht : d._tf_listener d._static_frame polygon.header.frame_id polygon.header.stamp
        = Except.ok tf) :
    d.update.get_lines = adjacentSegments d._color ((read_points polygon.polygon).map tf) ∧
    d.update.get_lines.length = polygon.polygon.points.length - 1 ∧
    ∀ (i : ℕ) (h1 : i < ((read_points polygon.polygon).map tf).length)
      (h2 : i + 1 < ((read_points polygon.polygon).map tf).length)
      (h3 : i < d.update.get_lines.length),
      d.update.get_lines[i] =
        ⟨((read_points polygon.polygon).map tf)[i].x,
         ((read_points polygon.polygon).map tf)[i].y,
         ((read_points polygon.polygon).map tf)[i + 1].x,
         ((read_points polygon.polygon).map tf)[i + 1].y, d._color⟩ := by
  have hL : d.update.get_lines
      = adjacentSegments d._color ((read_points polygon.polygon).map tf) := by
    rw [update_tf_ok d polygon tf hm ht]
    exact get_lines_of_some _ _ rfl
  refine ⟨hL, ?_, ?_⟩
  · rw [hL, adjacentSegments_length]
    simp [read_points]
  · intro i h1 h2 h3
    simp only [hL]
    exact adjacentSegments_getElem d._color _ i h1 h2 (by rw [← hL]; exact h3)

/-- Witness for C1: the spec scenario — points (0,0), (1,0), (1,1) under an
identity transform yield the two segments (0,0)–(1,0) and (1,0)–(1,1). -/
theorem update_success_segments_witness :
    dTri.update.get_lines = [⟨0, 0, 1, 0, 7⟩, ⟨1, 0, 1, 1, 7⟩] ∧
    dTri.update.get_lines.length = msgTri.polygon.points.length - 1 := by
  have h := update_success_segments dTri msgTri (fun p => p) rfl rfl
  refine ⟨?_, h.2.1⟩
  rw [h.1]
  decide

/-- Claim C2 (confirmed): after an `update` in which the transform lookup
fails, `get_lines` returns the empty sequence and the cache is cleared,
whatever was cached before — the previous cache is never returned. -/
theorem update_failure_clears_cache (d : PolygonData) (polygon : PolygonStamped)
    (e : Unit)
    (hm : d.polygon_stamped_msg = some polygon)
    (ht : d._tf_listener d._static_frame polygon.header.frame_id polygon.header.stamp
        = Except.error e) :
    d.update.get_lines = [] ∧ d.update.lines_in_static_frame = none := by
  rw [update_tf_error d polygon e hm ht]
  exact ⟨get_lines_of_none _ rfl, rfl⟩

/-- Witness for C2: a state with a non-empty cached segment list and a
failing transform provider reads back empty after `update`. -/
theorem update_failure_clears_cache_witness :
    dStale.lines_in_static_frame = some [⟨3, 4, 5, 6, 7⟩] ∧
    dStale.update.get_lines = [] ∧
    dStale.update.lines_in_static_frame = none :=
  ⟨rfl, (update_failure_clears_cache dStale msgTri () rfl rfl).1,
    (update_failure_clears_cache dStale msgTri () rfl rfl).2⟩

/-- Claim C8 (confirmed): `PolygonData::get_lines` returns the cached
segments, or the empty sequence when the cache is absent, as a pure
function of the state (the state is not modified — the embedding types it
as a read); and `PolygonListener::get_lines` reads the state's cache
directly, never invoking `update`. -/
theorem get_lines_pure_read :
    (∀ d : PolygonData, d.get_lines = d.lines_in_static_frame.getD []) ∧
    (∀ l : PolygonListener, l.get_lines = l._data.lines_in_static_frame.getD []) := by
  constructor
  · intro d
    rcases h : d.lines_in_static_frame with _ | lines
    · rw [get_lines_of_none d h]
      rfl
    · rw [get_lines_of_some d lines h]
      rfl
  · intro l
    rcases h : l._data.lines_in_static_frame with _ | lines
    · rw [show l.get_lines = l._data.get_lines from rfl, get_lines_of_none _ h]
      rfl
    · rw [show l.get_lines = l._data.get_lines from rfl, get_lines_of_some _ lines h]
      rfl

/-- Claim C10 (confirmed): with the transform provider a fixed function of
(target frame, source frame, timestamp), `update` is idempotent. -/
theorem update_idempotent (d : PolygonData) : d.update.update = d.update := by
  rcases hm : d.polygon_stamped_msg with _ | polygon
  · rw [update_msg_none d hm]
    exact update_msg_none _ hm
  · rcases ht : d._tf_listener d._static_frame polygon.header.frame_id
        polygon.header.stamp with e | tf
    · rw [update_tf_error d polygon e hm ht]
      exact update_tf_error _ polygon e hm ht
    · rw [update_tf_ok d polygon tf hm ht]
      exact update_tf_ok _ polygon tf hm ht

/-- Claim C5 (confirmed): every operation on a Polygon State — construction
by either source, `update`, the push handler, and the pull source's
`get_lines` (the only read that mutates) — establishes or preserves the
invariant that an absent `last_message` implies an absent cache. -/
theorem polygon_empty_msg_invariant :
    (∀ (config : ParameterConfigColor) (tfl : TfListener) (sf : String)
      (pv : Option (Except Unit (List (List ℚ)))) (ct : Time) (p : ParameterPolygon),
      ParameterPolygon.new config tfl sf pv ct = Except.ok p → p._data.emptyMsgInv) ∧
    (∀ (config : ListenerConfigColor) (tfl : TfListener) (sf : String),
      (PolygonListener.new config tfl sf)._data.emptyMsgInv) ∧
    (∀ d : PolygonData, d.update.emptyMsgInv) ∧
    (∀ (d : PolygonData) (msg : PolygonStamped),
      (PolygonListener.handle d msg).emptyMsgInv) ∧
    (∀ p : ParameterPolygon, (p.get_lines).1._data.emptyMsgInv) := by
  have hupd : ∀ d : PolygonData, d.update.emptyMsgInv := by
    intro d h
    have hm : d.polygon_stamped_msg = none := (update_preserves_msg d).symm.trans h
    rw [update_msg_none d hm]
  refine ⟨?_, ?_, hupd, ?_, ?_⟩
  · intro config tfl sf pv ct p hp
    unfold ParameterPolygon.new at hp
    rcases hg : get_polygon_from_ros_param pv with e | _ | polygon
    all_goals rw [hg] at hp
    · exact absurd hp (by simp)
    · cases hp
      intro
      rfl
    · cases hp
      intro habs
      exact absurd habs (by simp)
  · intro config tfl sf h
    rfl
  · intro d msg h
    unfold PolygonListener.handle at h
    rw [update_preserves_msg] at h
    exact absurd h (by simp)
  · intro p
    exact hupd p._data

/-- Witness for C5: a pull source constructed from an absent parameter
satisfies the invariant. -/
theorem polygon_empty_msg_invariant_witness :
    pEmpty._data.emptyMsgInv ∧ pEmpty._data.polygon_stamped_msg = none :=
  ⟨polygon_empty_msg_invariant.1 cfgP tflFail "static" none 0 pEmpty rfl, rfl⟩

/-- Claim C7 (confirmed): every segment produced by `update` carries the
state's color, and both sources store the configured color in the state at
construction. -/
theorem segment_color_from_construction :
    (∀ (d : PolygonData) (s : Line), s ∈ d.update.get_lines → s.color = d._color) ∧
    (∀ (config : ParameterConfigColor) (tfl : TfListener) (sf : String)
      (pv : Option (Except Unit (List (List ℚ)))) (ct : Time) (p : ParameterPolygon),
      ParameterPolygon.new config tfl sf pv ct = Except.ok p →
      p._data._color = config.color) ∧
    (∀ (config : ListenerConfigColor) (tfl : TfListener) (sf : String),
      (PolygonListener.new config tfl sf)._data._color = config.color) := by
  refine ⟨?_, ?_, ?_⟩
  · intro d s hs
    rcases hm : d.polygon_stamped_msg with _ | polygon
    · rw [update_msg_none d hm, get_lines_of_none _ rfl] at hs
      exact absurd hs (List.not_mem_nil s)
    · rcases ht : d._tf_listener d._static_frame polygon.header.frame_id
          polygon.header.stamp with e | tf
      · rw [update_tf_error d polygon e hm ht, get_lines_of_none _ rfl] at hs
        exact absurd hs (List.not_mem_nil s)
      · rw [update_tf_ok d polygon tf hm ht, get_lines_of_some _ _ rfl] at hs
        exact adjacentSegments_color_mem d._color _ s hs
  · intro config tfl sf pv ct p hp
    unfold ParameterPolygon.new at hp
    rcases hg : get_polygon_from_ros_param pv with e | _ | polygon
    all_goals rw [hg] at hp
    · exact absurd hp (by simp)
    · cases hp
      rfl
    · cases hp
      rfl
  · intro config tfl sf
    rfl

/-- Witness for C7: the first segment of the spec scenario carries the
constructed color, and a push source stores its configured color. -/
theorem segment_color_from_construction_witness :
    (Line.mk 0 0 1 0 7).color = dTri._color ∧
    pEmpty._data._color = cfgP.color ∧
    (PolygonListener.new cfgL tflId "static")._data._color = cfgL.color :=
  ⟨segment_color_from_construction.1 dTri ⟨0, 0, 1, 0, 7⟩ (by decide),
   segment_color_from_construction.2.1 cfgP tflFail "static" none 0 pEmpty rfl,
   segment_color_from_construction.2.2 cfgL tflId "static"⟩

/-- Claim C6 counterexample: with points (0,0), (1,1), (0,0), (1,1) and an
identity transform, the emitted segment at index 1 runs from (1,1) — the
(x, y) of the transformed last point — to (0,0) — the (x, y) of the
transformed first point — although the input sequence does not duplicate
its first point at the end (its last point (1,1) differs from its first
point (0,0)). The claim as stated is therefore false. -/
theorem closing_segment_value_counterexample :
    dAB.update.get_lines = [⟨0, 0, 1, 1, 7⟩, ⟨1, 1, 0, 0, 7⟩, ⟨0, 0, 1, 1, 7⟩] ∧
    (⟨1, 1, 0, 0, 7⟩ : Line) ∈ dAB.update.get_lines ∧
    (read_points msgAB.polygon).head? = some ⟨0, 0, 0⟩ ∧
    (read_points msgAB.polygon).getLast? = some ⟨1, 1, 0⟩ ∧
    msgAB.polygon.points.getLast? ≠ msgAB.polygon.points.head? := by
  refine ⟨by decide, by decide, by decide, by decide, by decide⟩

/-- Claim C6 (amended): every emitted segment connects a pair of adjacent
transformed points, in order; hence no extra closing segment is appended,
and a segment whose endpoints are the (x, y) of the transformed last point
and of the transformed first point can occur only when some adjacent input
pair transforms to exactly those two points (as when the input duplicates
the first point at the end). -/
theorem segments_from_adjacent_pairs (d : PolygonData) (polygon : PolygonStamped)
    (tf : Point3 → Point3) (s : Line)
    (hm : d.polygon_stamped_msg = some polygon)
    (ht : d._tf_listener d._static_frame polygon.header.frame_id polygon.header.stamp
        = Except.ok tf)
    (hs : s ∈ d.update.get_lines) :
    ∃ (i : ℕ) (h1 : i < ((read_points polygon.polygon).map tf).length)
      (h2 : i + 1 < ((read_points polygon.polygon).map tf).length),
      s = ⟨((read_points polygon.polygon).map tf)[i].x,
           ((read_points polygon.polygon).map tf)[i].y,
           ((read_points polygon.polygon).map tf)[i + 1].x,
           ((read_points polygon.polygon).map tf)[i + 1].y, d._color⟩ := by
  rw [update_tf_ok d polygon tf hm ht, get_lines_of_some _ _ rfl] at hs
  obtain ⟨i, hi, hival⟩ := List.getElem_of_mem hs
  have hlen : i < ((read_points polygon.polygon).map tf).length - 1 := by
    rw [adjacentSegments_length] at hi
    exact hi
  have h1 : i < ((read_points polygon.polygon).map tf).length := by omega
  have h2 : i + 1 < ((read_points polygon.polygon).map tf).length := by omega
  exact ⟨i, h1, h2, by rw [← hival, adjacentSegments_getElem _ _ i h1 h2 hi]⟩

/-- Witness for the amended C6: in the spec scenario the segment
(0,0)–(1,0) arises from the adjacent pair at some index. -/
theorem segments_from_adjacent_pairs_witness :
    ∃ (i : ℕ) (h1 : i < ((read_points msgTri.polygon).map (fun p => p)).length)
      (h2 : i + 1 < ((read_points msgTri.polygon).map (fun p => p)).length),
      (⟨0, 0, 1, 0, 7⟩ : Line) =
        ⟨((read_points msgTri.polygon).map (fun p => p))[i].x,
         ((read_points msgTri.polygon).map (fun p => p))[i].y,
         ((read_points msgTri.polygon).map (fun p => p))[i + 1].x,
         ((read_points msgTri.polygon).map (fun p => p))[i + 1].y, dTri._color⟩ :=
  segments_from_adjacent_pairs dTri msgTri (fun p => p) ⟨0, 0, 1, 0, 7⟩ rfl rfl
    (by decide)

/-- Claim C3 counterexample: a configuration value that is present and
decodes as `[[]]` — malformed, since its inner list has no coordinates —
does not degrade gracefully: `pt[0]` panics (index out of bounds), so
construction of the pull source fails fatally rather than proceeding. -/
theorem parameter_polygon_short_row_panics :
    ParameterPolygon.new cfgP tflFail "static" (some (Except.ok [[]])) 0 =
      Except.error "index out of bounds" := rfl

/-- Claim C3 (amended): for a configuration value that is absent or fails
to decode as a nested numeric list, construction of the pull source
succeeds, the state is created with `last_message` absent, and every
`get_lines` call on such a state returns the empty sequence and leaves
`last_message` absent (so all subsequent calls return empty too). A value
that decodes but whose first short inner list has fewer than two elements
instead panics during construction (see the counterexample). -/
theorem parameter_polygon_absent_or_undecodable
    (config : ParameterConfigColor) (tfl : TfListener) (sf : String)
    (pv : Option (Except Unit (List (List ℚ)))) (ct : Time)
    (h : pv = none ∨ ∃ e, pv = some (Except.error e)) :
    (∃ p, ParameterPolygon.new config tfl sf pv ct = Except.ok p ∧
      p._data.polygon_stamped_msg = none ∧ p._data.lines_in_static_frame = none) ∧
    (∀ q : ParameterPolygon, q._data.polygon_stamped_msg = none →
      (q.get_lines).2 = [] ∧ (q.get_lines).1._data.polygon_stamped_msg = none) := by
  constructor
  · rcases h with rfl | ⟨e, rfl⟩
    · exact ⟨⟨⟨none, none, config.color, tfl, sf⟩⟩, rfl, rfl, rfl⟩
    · exact ⟨⟨⟨none, none, config.color, tfl, sf⟩⟩, rfl, rfl, rfl⟩
  · intro q hq
    have hu := update_msg_none q._data hq
    constructor
    · show (q._data.update).get_lines = []
      rw [hu]
      exact get_lines_of_none _ rfl
    · show (q._data.update).polygon_stamped_msg = none
      rw [hu]
      exact hq

/-- Witness for the amended C3: with the parameter absent, construction
succeeds with no message and `get_lines` reads back empty. -/
theorem parameter_polygon_absent_witness :
    (∃ p, ParameterPolygon.new cfgP tflFail "static" none 0 = Except.ok p ∧
      p._data.polygon_stamped_msg = none ∧ p._data.lines_in_static_frame = none) ∧
    (pEmpty.get_lines).2 = [] ∧
    (pEmpty.get_lines).1._data.polygon_stamped_msg = none := by
  have h := parameter_polygon_absent_or_undecodable cfgP tflFail "static" none 0
    (Or.inl rfl)
  exact ⟨h.1, h.2 pEmpty rfl⟩

/-- Claim C4 counterexample: constructing the pull source from the
well-formed value `[[1, 2]]` at (ghost) construction time 5 stores a
message whose stamp is 0 — `rosrust::Time::new()`, the constant default
time — not the construction time 5: the constructor never reads a clock,
so "timestamp equal to the construction time" fails. -/
theorem parameter_polygon_zero_timestamp :
    ParameterPolygon.new cfgP tflFail "static" (some (Except.ok [[1, 2]])) 5 =
      Except.ok pStamped ∧
    pStamped._data.polygon_stamped_msg =
      some ⟨⟨0, 0, "base_link"⟩, ⟨[⟨1, 2, 0⟩]⟩⟩ ∧
    (0 : Time) ≠ 5 :=
  ⟨rfl, rfl, by decide⟩

/-- Claim C4 (amended): for a present, well-formed configuration value, the
Boundary Message stored at construction has `frame_id` equal to the
configured frame id, the parsed points (first two coordinates of each row,
z = 0), and timestamp equal to `Time.new` — the constant default (zero)
time, independent of the construction time. -/
theorem parameter_polygon_stored_message
    (config : ParameterConfigColor) (tfl : TfListener) (sf : String)
    (rows : List (List ℚ)) (ct : Time)
    (h : ∀ r ∈ rows, 2 ≤ r.length) :
    (∃ p, ParameterPolygon.new config tfl sf (some (Except.ok rows)) ct = Except.ok p ∧
      p._data.polygon_stamped_msg = some
        { header := { seq := 0, stamp := Time.new, frame_id := config.frame }
          polygon := ⟨rows.map (fun r => (⟨r.headI, r.tail.headI, 0⟩ : Point32))⟩ }) ∧
    Time.new = 0 := by
  constructor
  · unfold ParameterPolygon.new
    rw [get_polygon_ok_rows rows h]
    exact ⟨_, rfl, rfl⟩
  · rfl

/-- Witness for the amended C4: rows `[[1, 2], [3, 4, 9]]` produce the
stored message with the configured frame, the first two coordinates of
each row, and the constant zero stamp. -/
theorem parameter_polygon_stored_message_witness :
    (∃ p, ParameterPolygon.new cfgP tflFail "static"
        (some (Except.ok [[1, 2], [3, 4, 9]])) 0 = Except.ok p ∧
      p._data.polygon_stamped_msg = some
        { header := { seq := 0, stamp := Time.new, frame_id := cfgP.frame }
          polygon := ⟨[[1, 2], [3, 4, 9]].map
            (fun r => (⟨r.headI, r.tail.headI, 0⟩ : Point32))⟩ }) ∧
    Time.new = 0 :=
  parameter_polygon_stored_message cfgP tflFail "static" [[1, 2], [3, 4, 9]] 0
    (by decide)

/-- Claim C9 (confirmed): a configuration value decoding as a list of
numeric rows, each with at least two elements, is parsed by
`get_polygon_from_ros_param` into points using exactly the first two
elements of each row as (x, y) — any further elements are ignored — with
z = 0 for every produced point. -/
theorem ros_param_uses_first_two_coords (rows : List (List ℚ))
    (h : ∀ r ∈ rows, 2 ≤ r.length) :
    get_polygon_from_ros_param (some (Except.ok rows)) =
      Except.ok (some ⟨rows.map (fun r => (⟨r.headI, r.tail.headI, 0⟩ : Point32))⟩) :=
  get_polygon_ok_rows rows h

/-- Witness for C9: the rows `[[1, 2, 9], [3, 4]]` parse to the points
(1, 2, 0) and (3, 4, 0); the third element 9 is ignored. -/
theorem ros_param_uses_first_two_coords_witness :
    get_polygon_from_ros_param (some (Except.ok [[1, 2, 9], [3, 4]])) =
      Except.ok (some ⟨[⟨1, 2, 0⟩, ⟨3, 4, 0⟩]⟩) := by
  rw [ros_param_uses_first_two_coords [[1, 2, 9], [3, 4]] (by decide)]
  rfl
